import Mathlib

set_option maxRecDepth 4000

/-!
Verification development for the guild membership-gating and claim bot
(src/bot.py).  Python functions are shallowly embedded as executable Lean
definitions; Python strings are Lean `String` (a list of characters),
Python ints are `Nat` (all quantities involved are nonnegative), and the
fallible remote calls are modelled by explicit outcome parameters.
-/

/-! ### Character and string helpers (Python semantics, ASCII fragment) -/

/-- Python `str.isdigit` on one character, restricted to the ASCII digits. -/
def pyIsDigitChar (c : Char) : Bool :=
  decide ('0' ≤ c) && decide (c ≤ '9')

/-- Python `str.isdigit`: nonempty and every character a digit. -/
def pyIsDigit (s : String) : Bool :=
  !s.data.isEmpty && s.data.all pyIsDigitChar

/-- Python whitespace class (the characters matched by `\s` and stripped
by `str.strip`, ASCII fragment). -/
def pyIsSpaceChar (c : Char) : Bool :=
  c == ' ' || c == '\t' || c == '\n' || c == '\r' || c == Char.ofNat 11 || c == Char.ofNat 12

/-- Python `str.lower` on one character (ASCII fragment). -/
def pyLowerChar (c : Char) : Char :=
  if 'A' ≤ c ∧ c ≤ 'Z' then Char.ofNat (c.toNat + 32) else c

/-- Python `str.strip()` on a character list. -/
def pyStrip (l : List Char) : List Char :=
  ((l.dropWhile pyIsSpaceChar).reverse.dropWhile pyIsSpaceChar).reverse

/-- Numeric value of a digit string (the int() of a `\d+` regex group). -/
def digitsToNat (ds : List Char) : Nat :=
  ds.foldl (fun acc c => acc * 10 + (c.toNat - 48)) 0

/-- Python `s.split(c)[0]`: the longest prefix not containing `c`. -/
def pyTakeUntil (c : Char) (s : String) : String :=
  String.mk (s.data.takeWhile (fun x => !(x == c)))

/-- Python `c in s` for a one-character needle. -/
def pyContains (s : String) (c : Char) : Bool :=
  s.data.contains c

/-! ### parse_duration_to_seconds (src/bot.py lines 78-86) -/

/-- The regex `re.fullmatch(r"(\d+)\s*([smhd])", t)`: a nonempty run of
digits, optional whitespace, then exactly one unit character ending the
string.  Returns the magnitude and the unit on a full match. -/
def durationFullmatch (l : List Char) : Option (Nat × Char) :=
  let ds := l.takeWhile pyIsDigitChar
  let rest := (l.dropWhile pyIsDigitChar).dropWhile pyIsSpaceChar
  if ds.isEmpty then none
  else
    match rest with
    | [u] =>
      if u == 's' || u == 'm' || u == 'h' || u == 'd' then some (digitsToNat ds, u)
      else none
    | _ => none

/-- Embeds `parse_duration_to_seconds` (src/bot.py lines 78-86):
on a regex match the magnitude times the unit multiplier, otherwise the
silently substituted default of 15 seconds. -/
def parse_duration_to_seconds (text : String) : Nat :=
  match durationFullmatch (pyStrip (text.data.map pyLowerChar)) with
  | none => 15
  | some (num, unit) =>
    num * (if unit == 's' then 1 else if unit == 'm' then 60
           else if unit == 'h' then 3600 else 86400)

/-- Result of the duration handling in `bonus_command`
(src/bot.py lines 1117-1123). -/
inductive BonusDurationResult where
  | invalidDurationError
  | nonPositiveError
  | posted (seconds : Nat)
deriving DecidableEq

/-- Embeds the duration-parameter handling of `bonus_command`
(src/bot.py lines 1117-1123).  The source wraps the parse in
try/except ValueError and would answer with the invalid-duration error
on an exception; since `parse_duration_to_seconds` never raises, that
branch is unreachable and is represented by the never-produced
`invalidDurationError` constructor. -/
def bonus_duration_check (duration : String) : BonusDurationResult :=
  let seconds := parse_duration_to_seconds duration
  if seconds ≤ 0 then .nonPositiveError else .posted seconds

/-! ### Numeric-uid marker (src/bot.py lines 273-275 and 307-308) -/

/-- The single-quote marker character prepended to numeric uids. -/
def squote : String := String.mk [Char.ofNat 39]

/-- Python `s.startswith("'")`. -/
def startsWithQuote (s : String) : Bool :=
  match s.data with
  | [] => false
  | c :: _ => c == Char.ofNat 39

/-- Embeds the uid marking expression used both by
`save_granted_history_sheet` (src/bot.py line 275) and
`append_bonus_log_to_sheet` (src/bot.py line 308):
a marker is prepended exactly when the uid is purely numeric and does
not already start with the marker. -/
def quote_numeric_uid (raw_uid : String) : String :=
  if pyIsDigit raw_uid && !startsWithQuote raw_uid then squote ++ raw_uid else raw_uid

/-! ### format_iso_time (src/bot.py lines 60-76) -/

/-- A parsed calendar timestamp (the fields of a Python naive datetime
used by the bot; fractional seconds never survive the stripping). -/
structure PyDateTime where
  year : Nat
  month : Nat
  day : Nat
  hour : Nat
  minute : Nat
  second : Nat
deriving DecidableEq

/-- Days in a month under the proleptic Gregorian calendar used by
Python datetime. -/
def daysInMonth (y m : Nat) : Nat :=
  if m = 2 then (if (y % 4 = 0 ∧ y % 100 ≠ 0) ∨ y % 400 = 0 then 29 else 28)
  else if m = 4 ∨ m = 6 ∨ m = 9 ∨ m = 11 then 30 else 31

/-- Valid UTC-offset suffix of an ISO time: empty, or a sign followed
by exactly HH:MM or HH:MM:SS (the CPython 3.8-3.10 parser accepts only
those two shapes once fractions are out of reach), with the total
offset strictly below 24 hours as the timezone constructor demands. -/
def isoOffsetSuffixOk (l : List Char) : Bool :=
  match l with
  | [] => true
  | sign :: h1 :: h2 :: c :: m1 :: m2 :: rest =>
    (sign == '+' || sign == '-') && pyIsDigitChar h1 && pyIsDigitChar h2 &&
    (c == ':') && pyIsDigitChar m1 && pyIsDigitChar m2 &&
    (match rest with
     | [] => decide (digitsToNat [h1, h2] * 3600 + digitsToNat [m1, m2] * 60 < 86400)
     | c2 :: s1 :: s2 :: [] =>
       (c2 == ':') && pyIsDigitChar s1 && pyIsDigitChar s2 &&
       decide (digitsToNat [h1, h2] * 3600 + digitsToNat [m1, m2] * 60
         + digitsToNat [s1, s2] < 86400)
     | _ => false)
  | _ => false

/-- Hour, minute and second in the ranges the Python time constructor
accepts. -/
def validTimeFields (h mi sec : Nat) : Bool :=
  decide (h ≤ 23) && decide (mi ≤ 59) && decide (sec ≤ 59)

/-- The time-of-day part after the single separator character:
HH, HH:MM or HH:MM:SS (the CPython parser breaks out of its component
loop as soon as the next character is missing, so the bare-hour and
hour-minute forms are accepted), followed by an optional UTC-offset
suffix.  Modelled from the Python datetime.fromisoformat grammar
(3.8-3.10, without the fractional-second forms, which cannot reach the
parser here because the caller strips everything from the first dot). -/
def isoTimePart (l : List Char) : Option (Nat × Nat × Nat) :=
  match l with
  | h1 :: h2 :: rest =>
    if pyIsDigitChar h1 && pyIsDigitChar h2 then
      let h := digitsToNat [h1, h2]
      match rest with
      | ':' :: m1 :: m2 :: rest2 =>
        if pyIsDigitChar m1 && pyIsDigitChar m2 then
          let mi := digitsToNat [m1, m2]
          match rest2 with
          | ':' :: s1 :: s2 :: rest3 =>
            if pyIsDigitChar s1 && pyIsDigitChar s2 then
              let sec := digitsToNat [s1, s2]
              if validTimeFields h mi sec && isoOffsetSuffixOk rest3 then
                some (h, mi, sec)
              else none
            else none
          | other =>
            if validTimeFields h mi 0 && isoOffsetSuffixOk other then some (h, mi, 0)
            else none
        else none
      | other =>
        if validTimeFields h 0 0 && isoOffsetSuffixOk other then some (h, 0, 0)
        else none
    else none
  | _ => none

/-- Modelled from the Python standard library: datetime.fromisoformat
as called by format_iso_time, pinned to the 3.8-3.10 grammar
contemporary with the code's libraries.  A YYYY-MM-DD date with
calendar validation, optionally followed by one arbitrary separator
character and a time of day (bare hour, hour-minute or full) with
optional UTC offset.  Returns none exactly when a 3.8-3.10 CPython
call raises ValueError; 3.11+ interpreters additionally accept compact
forms (e.g. HHMMSS times, YYYYMMDD dates, Z suffixes) that are outside
this pinned grammar. -/
def pyFromIsoformat (s : String) : Option PyDateTime :=
  match s.data with
  | y1 :: y2 :: y3 :: y4 :: c1 :: m1 :: m2 :: c2 :: d1 :: d2 :: rest =>
    if pyIsDigitChar y1 && pyIsDigitChar y2 && pyIsDigitChar y3 && pyIsDigitChar y4 &&
       (c1 == '-') && pyIsDigitChar m1 && pyIsDigitChar m2 && (c2 == '-') &&
       pyIsDigitChar d1 && pyIsDigitChar d2 then
      let y := digitsToNat [y1, y2, y3, y4]
      let mo := digitsToNat [m1, m2]
      let d := digitsToNat [d1, d2]
      if 1 ≤ y ∧ 1 ≤ mo ∧ mo ≤ 12 ∧ 1 ≤ d ∧ d ≤ daysInMonth y mo then
        match rest with
        | [] => some ⟨y, mo, d, 0, 0, 0⟩
        | _sep :: timeRest =>
          match isoTimePart timeRest with
          | some (h, mi, sec) => some ⟨y, mo, d, h, mi, sec⟩
          | none => none
      else none
    else none
  | _ => none

/-- Zero-pad to two digits (strftime %m %d %H %M %S). -/
def pad2 (n : Nat) : String := if n < 10 then "0" ++ toString n else toString n

/-- The rendering dt.strftime of the pattern %Y-%m-%d %H:%M:%S UTC
(src/bot.py line 72).  The year is rendered unpadded, as the glibc
strftime %Y used by CPython on the deployment platform prints it
(years below 1000 can only come from hand-edited cells; bot-written
years are four digits either way). -/
def strftime_utc (dt : PyDateTime) : String :=
  toString dt.year ++ "-" ++ pad2 dt.month ++ "-" ++ pad2 dt.day ++ " " ++
  pad2 dt.hour ++ ":" ++ pad2 dt.minute ++ ":" ++ pad2 dt.second ++ " UTC"

/-- The two stripping statements of format_iso_time (src/bot.py
lines 66-70): drop everything from the first plus sign, then everything
from the first dot.  In the source these statements reassign the local
iso_str, so this stripped value is also what the except-branch returns. -/
def strip_time_markers (iso_str : String) : String :=
  let s1 := if pyContains iso_str '+' then pyTakeUntil '+' iso_str else iso_str
  if pyContains s1 '.' then pyTakeUntil '.' s1 else s1

/-- Embeds format_iso_time (src/bot.py lines 60-76).  Empty input gives
the empty string; otherwise the markers are stripped, and a successful
parse is rendered while a failed parse returns the stripped local
variable (the value iso_str holds when ValueError is caught). -/
def format_iso_time (iso_str : String) : String :=
  if iso_str = "" then ""
  else
    match pyFromIsoformat (strip_time_markers iso_str) with
    | some dt => strftime_utc dt
    | none => strip_time_markers iso_str

/-! ### Data model (DataManager, src/bot.py lines 92-98) -/

/-- One guild_config record (src/bot.py lines 175-182): every cell is
read and kept as a string. -/
structure GuildConf where
  server_name : String
  channel_id : String
  role_id : String
  message_id : String
  bonus_role_id : String
deriving DecidableEq

/-- One granted_history record (src/bot.py lines 248-252). -/
structure HistoryEntry where
  uid : String
  username : String
  time : String
deriving DecidableEq

/-- The in-memory working set of DataManager (src/bot.py lines 92-98).
The two dictionaries keyed by an identifier are modelled as total
functions (Python dict.get with its default). -/
structure DMState where
  valid_uids : List String
  user_image_map : List (String × String)
  guild_config : String → Option GuildConf
  granted_history : String → List HistoryEntry

/-! ### Durable rows (src/bot.py lines 262-298 and 300-329) -/

/-- One sheet row built by save_granted_history_sheet
(src/bot.py lines 271-286): guild id, marked uid, username, formatted
time. -/
def granted_history_row (gid : String) (record : HistoryEntry) : List String :=
  [gid, quote_numeric_uid record.uid, record.username, format_iso_time record.time]

/-- The row appended by append_bonus_log_to_sheet
(src/bot.py lines 307-322): guild id, username, marked uid, formatted
timestamp. -/
def bonus_log_row (guild_id username uid timestamp : String) : List String :=
  [guild_id, username, quote_numeric_uid uid, format_iso_time timestamp]

/-! ### Grant workflow: CheckEligibilityButton.callback
(src/bot.py lines 362-462) -/

/-- Result of the platform call member.add_roles (src/bot.py
lines 405-423): success, discord.Forbidden, or discord.HTTPException. -/
inductive AddRolesResult where
  | ok
  | forbidden
  | httpError
deriving DecidableEq

/-- The terminal response of one grant-workflow invocation, one
constructor per send_message site of the callback. -/
inductive GrantOutcome where
  | notEligible
  | guildNotConfigured
  | roleIdInvalid
  | roleNotFound
  | alreadyGranted
  | grantForbidden
  | grantHttpError
  | granted
deriving DecidableEq

/-- Poststate of one grant-workflow invocation: the user-visible
outcome, the DataManager state (history included), and the member's
role set after the call. -/
structure GrantResult where
  outcome : GrantOutcome
  dm : DMState
  member_roles : List Nat

/-- int(role_id_str) for a digit string. -/
def strToNat (s : String) : Nat := digitsToNat s.data

/-- Embeds CheckEligibilityButton.callback (src/bot.py lines 362-462)
together with its background_save_history task (lines 446-462):
roster check, config lookup, role-id validation, live-role resolution
(guild_roles is the set of role ids existing in the guild), the
already-granted short-circuit, the fallible add_roles call, and on
success the appended in-memory history entry whose durable save is then
scheduled.  member_roles is the invoking member's current role ids. -/
def check_eligibility_callback (dm : DMState) (guild_id_str user_id_str : String)
    (guild_roles member_roles : List Nat) (add_result : AddRolesResult)
    (username timestamp : String) : GrantResult :=
  if user_id_str ∉ dm.valid_uids then ⟨.notEligible, dm, member_roles⟩
  else
    match dm.guild_config guild_id_str with
    | none => ⟨.guildNotConfigured, dm, member_roles⟩
    | some conf =>
      if pyIsDigit conf.role_id = false then ⟨.roleIdInvalid, dm, member_roles⟩
      else
        let role_id := strToNat conf.role_id
        if role_id ∉ guild_roles then ⟨.roleNotFound, dm, member_roles⟩
        else if role_id ∈ member_roles then ⟨.alreadyGranted, dm, member_roles⟩
        else
          match add_result with
          | .forbidden => ⟨.grantForbidden, dm, member_roles⟩
          | .httpError => ⟨.grantHttpError, dm, member_roles⟩
          | .ok =>
            let entry : HistoryEntry := ⟨user_id_str, username, timestamp⟩
            ⟨.granted,
             { dm with granted_history := fun g =>
                 if g = guild_id_str then dm.granted_history g ++ [entry]
                 else dm.granted_history g },
             role_id :: member_roles⟩

/-! ### Claim control: BonusButton.callback (src/bot.py lines 511-541)

The callback body, in source order, is: await log_func (the durable
ledger append), await send_message (the success response), then set
self.disabled and self.label and await edit_original_response.  Each
await is a suspension point of the cooperative event loop, so presses
may interleave at those points.  The callback performs no check of the
claimed/disabled flag on entry, and its edit_original_response call
(line 534) edits the interaction original response - the ephemeral
success reply just sent - not the posted channel message hosting the
button, so the posted control affordance is never disabled by a claim
press and every press of the window is delivered and handled in full.
The awaited log_func, append_bonus_log_to_sheet (lines 300-329),
catches worksheet-missing and APIError failures internally and returns
normally either way, so a press whose durable row was never written
still proceeds to the success response and the flag-set; this is
modelled by a per-press written flag saying whether the row reached
the store.  The machine below runs up to two press-handling tasks over
the shared button state. -/

/-- Progress of one press-handling task: not yet delivered, running its
next atomic segment (0 = about to call the append, 1 = about to send
the success response, 2 = about to set the flag and edit the ephemeral
reply), or done. -/
inductive PressTask where
  | pending
  | running (pc : Nat)
  | done
deriving DecidableEq

/-- Shared claim-control state: the in-memory claimed/disabled flag of
the button object, the affordance of the posted channel control, the
number of ledger rows that reached the store, the number of success
responses sent, and the two press tasks. -/
structure BonusSys where
  claimed : Bool
  control_disabled : Bool
  ledger : Nat
  succ : Nat
  t1 : PressTask
  t2 : PressTask
deriving DecidableEq

/-- One atomic segment of a press task, between suspension points of
BonusButton.callback (src/bot.py lines 518-535).  written says whether
this press log_func call actually lands a row in the store (the call
returns normally either way).  Delivery is unconditional: nothing in
the callback or in the posted control rejects a press while the window
is open.  The flag-set segment mutates the button object and edits the
ephemeral reply, leaving the posted control affordance untouched.
Returns the new task state, claimed flag, control affordance, ledger
count and success count. -/
def pressSegment (written claimed control_disabled : Bool) (ledger succ : Nat) :
    PressTask → PressTask × Bool × Bool × Nat × Nat
  | .pending => (.running 0, claimed, control_disabled, ledger, succ)
  | .running 0 =>
    (.running 1, claimed, control_disabled, if written then ledger + 1 else ledger, succ)
  | .running 1 => (.running 2, claimed, control_disabled, ledger, succ + 1)
  | .running 2 => (.done, true, control_disabled, ledger, succ)
  | .running (pc + 3) => (.running (pc + 3), claimed, control_disabled, ledger, succ)
  | .done => (.done, claimed, control_disabled, ledger, succ)

/-- Interleaved scheduler step: false runs one segment of the first
press task (whose store write lands iff w1), true one segment of the
second (respectively w2). -/
def bonusStep (w1 w2 : Bool) (s : BonusSys) (pick : Bool) : BonusSys :=
  if pick then
    let r := pressSegment w2 s.claimed s.control_disabled s.ledger s.succ s.t2
    ⟨r.2.1, r.2.2.1, r.2.2.2.1, r.2.2.2.2, s.t1, r.1⟩
  else
    let r := pressSegment w1 s.claimed s.control_disabled s.ledger s.succ s.t1
    ⟨r.2.1, r.2.2.1, r.2.2.2.1, r.2.2.2.2, r.1, s.t2⟩

/-- The freshly posted claim control (claimed flag false, enabled
affordance, nothing logged, no press delivered). -/
def bonusInit : BonusSys := ⟨false, false, 0, 0, .pending, .pending⟩

/-- Run a schedule of interleaved segments from the fresh control. -/
def bonusRun (w1 w2 : Bool) (sched : List Bool) : BonusSys :=
  sched.foldl (bonusStep w1 w2) bonusInit

/-! ### History pagination: HistoryPagerView (src/bot.py lines 562-641) -/

/-- The pager state (src/bot.py lines 562-574): immutable snapshot,
cursor, fixed page size, derived page count. -/
structure HistoryPagerView where
  records : List HistoryEntry
  current_page : Nat
  per_page : Nat
  total_pages : Nat
deriving DecidableEq

/-- Embeds HistoryPagerView.__init__ (src/bot.py lines 563-568):
page 0, page size 10, and ceil(count / 10) pages, or one page when the
snapshot is empty. -/
def HistoryPagerView.init (records : List HistoryEntry) : HistoryPagerView :=
  { records := records
    current_page := 0
    per_page := 10
    total_pages := if records.isEmpty then 1 else (records.length + 9) / 10 }

/-- How a navigation callback answers the interaction: an edited message
carrying the new page, or a bare acknowledgement. -/
inductive NavResponse where
  | editedMessage
  | deferredAck
deriving DecidableEq

/-- Embeds PrevPageButton.callback (src/bot.py lines 620-627). -/
def prev_page_callback (v : HistoryPagerView) : HistoryPagerView × NavResponse :=
  if 0 < v.current_page then
    ({ v with current_page := v.current_page - 1 }, .editedMessage)
  else (v, .deferredAck)

/-- Embeds NextPageButton.callback (src/bot.py lines 634-641). -/
def next_page_callback (v : HistoryPagerView) : HistoryPagerView × NavResponse :=
  if v.current_page < v.total_pages - 1 then
    ({ v with current_page := v.current_page + 1 }, .editedMessage)
  else (v, .deferredAck)

/-- A navigation press on one of the two pager buttons. -/
inductive NavPress where
  | prevPage
  | nextPage
deriving DecidableEq

/-- State reached after one navigation press. -/
def apply_press (v : HistoryPagerView) : NavPress → HistoryPagerView
  | .prevPage => (prev_page_callback v).1
  | .nextPage => (next_page_callback v).1

/-- State reached after a sequence of navigation presses. -/
def apply_presses (v : HistoryPagerView) (ps : List NavPress) : HistoryPagerView :=
  ps.foldl apply_press v

/-! ### setup command (src/bot.py lines 749-848) -/

/-- Result of fetching and editing the previously recorded prompt
(src/bot.py lines 795-810): success, discord.NotFound,
discord.Forbidden, or discord.HTTPException. -/
inductive EditOutcome where
  | ok
  | notFound
  | forbidden
  | httpError
deriving DecidableEq

/-- Result of posting a new prompt (src/bot.py lines 814-824). -/
inductive SendOutcome where
  | ok
  | forbidden
  | httpError
deriving DecidableEq

/-- How the message phase of setup ends: the prior prompt edited in
place (carrying its preserved message id), a new prompt posted (carrying
the new message id), or one of the four early-return failures. -/
inductive MsgPhase where
  | edited (message_id : String)
  | createdNew (message_id : String)
  | failEditForbidden
  | failEditHttp
  | failSendForbidden
  | failSendHttp
deriving DecidableEq

/-- Embeds the message phase of setup_command (src/bot.py
lines 786-824): the edit is attempted only when a prior config exists
with a nonempty, numeric message id recorded for the same channel; an
edit that raises NotFound falls through to posting a new prompt, while
Forbidden and HTTPException return the failure at once; otherwise a new
prompt is posted, itself fallible. -/
def setup_message_phase (old_config : Option GuildConf) (channel_id : String)
    (edit : EditOutcome) (send : SendOutcome) (new_msg_id : String) : MsgPhase :=
  let attempt_edit :=
    match old_config with
    | some c => decide (c.message_id ≠ "") && decide (c.channel_id = channel_id)
                && pyIsDigit c.message_id
    | none => false
  let after_edit : Option MsgPhase :=
    if attempt_edit then
      match edit with
      | .ok => some (.edited ((old_config.map (·.message_id)).getD ""))
      | .notFound => none
      | .forbidden => some .failEditForbidden
      | .httpError => some .failEditHttp
    else none
  match after_edit with
  | some r => r
  | none =>
    match send with
    | .ok => .createdNew new_msg_id
    | .forbidden => .failSendForbidden
    | .httpError => .failSendHttp

/-- Embeds the configuration-save phase of setup_command (src/bot.py
lines 827-848): on a successful message phase the guild's record is
upserted with the channel, role and saved message id, keeping the
existing bonus_role_id; on a failed message phase nothing is saved. -/
def setup_config_phase (conf_map : String → Option GuildConf)
    (guild_id server_name channel_id role_id : String) (phase : MsgPhase) :
    String → Option GuildConf :=
  match phase with
  | .edited m =>
    let current := (conf_map guild_id).getD ⟨"", "", "", "", ""⟩
    fun g => if g = guild_id then
        some ⟨server_name, channel_id, role_id, m, current.bonus_role_id⟩
      else conf_map g
  | .createdNew m =>
    let current := (conf_map guild_id).getD ⟨"", "", "", "", ""⟩
    fun g => if g = guild_id then
        some ⟨server_name, channel_id, role_id, m, current.bonus_role_id⟩
      else conf_map g
  | _ => conf_map

/-! ### reset_history command (src/bot.py lines 969-1043) -/

/-- Embeds the guild_id column lookup (src/bot.py lines 998-1003):
header.index("guild_id"), defaulting to column 0 when the header lacks
the name (the caught ValueError). -/
def guild_id_col_index (header : List String) : Nat :=
  if "guild_id" ∈ header then header.indexOf "guild_id" else 0

/-- Whether _clear_guild_history_from_sheet keeps a data row (src/bot.py
lines 1006-1014): rows shorter than the guild column are skipped
(dropped), and among the others exactly those whose guild cell differs
from the guild being reset are kept. -/
def history_row_kept (i : Nat) (guild_id_str : String) (row : List String) : Bool :=
  match row.get? i with
  | none => false
  | some v => !(v == guild_id_str)

/-- Embeds _clear_guild_history_from_sheet (src/bot.py lines 989-1019):
the resulting full contents of the granted_history sheet.  An empty
sheet is returned untouched (the early return); otherwise the header is
kept and the data rows are filtered. -/
def clear_guild_history_from_sheet (all_values : List (List String))
    (guild_id_str : String) : List (List String) :=
  match all_values with
  | [] => []
  | header :: rest =>
    header :: rest.filter (history_row_kept (guild_id_col_index header) guild_id_str)

/-- Embeds the in-memory part of reset_history_command (src/bot.py
lines 979-984): the guild's own list is replaced by the empty list,
every other guild's list is untouched. -/
def reset_history_memory (hist : String → List HistoryEntry) (guild_id_str : String) :
    String → List HistoryEntry :=
  fun g => if g = guild_id_str then [] else hist g

/-! ### Theorems -/

/-- A purely numeric uid cannot already start with the quote marker. -/
theorem pyIsDigit_not_startsWithQuote (s : String) (h : pyIsDigit s = true) :
    startsWithQuote s = false := by
  obtain ⟨d⟩ := s
  cases d with
  | nil => simp [pyIsDigit] at h
  | cons c rest =>
    simp only [pyIsDigit, List.isEmpty_cons, Bool.not_false, Bool.true_and,
      List.all_cons, Bool.and_eq_true] at h
    obtain ⟨h1, -⟩ := h
    simp only [pyIsDigitChar, Bool.and_eq_true, decide_eq_true_eq] at h1
    simp only [startsWithQuote, beq_eq_false_iff_ne, ne_eq]
    intro hc
    subst hc
    exact absurd h1.1 (by decide)

/-- Prepending the quote marker makes the string start with it. -/
theorem startsWithQuote_squote_append (s : String) :
    startsWithQuote (squote ++ s) = true := by
  obtain ⟨d⟩ := s
  have he : (squote ++ String.mk d) = String.mk (Char.ofNat 39 :: d) := by
    apply String.ext
    simp [String.data_append, squote]
  rw [he]
  simp [startsWithQuote]

/-- C1: the claim says an unparseable /bonus duration is surfaced as an
invalid-duration error and never silently defaulted.  The code instead
silently substitutes a 15-second default inside
parse_duration_to_seconds, so bonus_command posts the button; its
except-ValueError branch (the invalid-duration response) is unreachable:
every invocation either posts the button for a positive parsed duration
or answers with the nonpositive-duration error.  The spec's own design
notes mandate rejection, making this a code bug. -/
theorem c1_invalid_duration_silently_defaults :
    parse_duration_to_seconds "10m" = 600 ∧
    parse_duration_to_seconds "abc" = 15 ∧
    bonus_duration_check "abc" = BonusDurationResult.posted 15 ∧
    ∀ text : String,
      bonus_duration_check text = BonusDurationResult.nonPositiveError ∨
      ∃ n, 0 < n ∧ bonus_duration_check text = BonusDurationResult.posted n := by
  refine ⟨by decide, by decide, by decide, ?_⟩
  intro text
  by_cases h : parse_duration_to_seconds text ≤ 0
  · left
    simp [bonus_duration_check, h]
  · right
    exact ⟨parse_duration_to_seconds text, by omega, by simp [bonus_duration_check, h]⟩

/-- C8: in every durable grant-history row and every claim-ledger row,
a purely numeric member identifier is written with the non-numeric
quote marker prepended (uid is column 1 of a history row and column 2
of a ledger row). -/
theorem c8_numeric_uid_written_with_marker :
    ∀ (gid : String) (record : HistoryEntry) (g un u t : String),
      pyIsDigit record.uid = true → pyIsDigit u = true →
      (granted_history_row gid record).get? 1 = some (squote ++ record.uid) ∧
      (bonus_log_row g un u t).get? 2 = some (squote ++ u) := by
  intro gid record g un u t h1 h2
  constructor
  · simp [granted_history_row, quote_numeric_uid, h1, pyIsDigit_not_startsWithQuote _ h1]
  · simp [bonus_log_row, quote_numeric_uid, h2, pyIsDigit_not_startsWithQuote _ h2]

/-- Witness for C8 at a concrete numeric uid. -/
theorem c8_numeric_uid_written_with_marker_witness :
    (granted_history_row "g1" ⟨"123", "alice", ""⟩).get? 1 = some (squote ++ "123") ∧
    (bonus_log_row "g1" "bob" "456" "").get? 2 = some (squote ++ "456") :=
  c8_numeric_uid_written_with_marker "g1" ⟨"123", "alice", ""⟩ "g1" "bob" "456" ""
    (by decide) (by decide)

/-- C9: the numeric-uid marking is idempotent - marking an already
marked identifier (as loaded back from the store) changes nothing, so
repeated load/save cycles never accumulate marker characters. -/
theorem c9_uid_marker_idempotent :
    ∀ uid : String, quote_numeric_uid (quote_numeric_uid uid) = quote_numeric_uid uid := by
  intro uid
  by_cases h : (pyIsDigit uid && !startsWithQuote uid) = true
  · have h1 : quote_numeric_uid uid = squote ++ uid := by
      rw [quote_numeric_uid, if_pos h]
    rw [h1, quote_numeric_uid, if_neg (by simp [startsWithQuote_squote_append])]
  · have h1 : quote_numeric_uid uid = uid := by
      rw [quote_numeric_uid, if_neg h]
    rw [h1, h1]

/-- C10 counterexample: the claim says an unparseable nonempty input
comes back unchanged, but the source strips the offset/fraction markers
by reassigning its local before parsing, so the except branch returns
the stripped string: "hello+world" comes back as "hello". -/
theorem c10_format_iso_time_counterexample :
    format_iso_time "hello+world" = "hello" ∧
    pyFromIsoformat (strip_time_markers "hello+world") = none ∧
    ("hello+world" == "hello") = false := by decide

/-- takeWhile never lengthens a list. -/
theorem length_takeWhile_le_self (p : Char → Bool) (l : List Char) :
    (l.takeWhile p).length ≤ l.length := by
  induction l with
  | nil => simp
  | cons a l ih =>
    rw [List.takeWhile_cons]
    by_cases h : p a = true
    · simp only [h, if_true, List.length_cons]
      omega
    · simp [h]

/-- Cutting a list at a character that occurs in it strictly shortens
it. -/
theorem length_takeWhile_lt_of_mem (c : Char) (l : List Char) (h : c ∈ l) :
    (l.takeWhile (fun x => !(x == c))).length < l.length := by
  induction l with
  | nil => cases h
  | cons a l ih =>
    rw [List.takeWhile_cons]
    by_cases ha : a = c
    · subst ha
      simp
    · have ha2 : (!(a == c)) = true := by simp [ha]
      rw [if_pos ha2]
      simp only [List.length_cons]
      have hc : c ∈ l := by
        rcases List.mem_cons.mp h with h1 | h1
        · exact absurd h1.symm ha
        · exact h1
      exact Nat.succ_lt_succ (ih hc)

/-- C10 amended: the formatter is total; empty input gives the empty
string; when the input with its markers stripped (everything from the
first plus sign, then everything from the first dot) parses under the
Python 3.8-3.10 fromisoformat grammar - which also admits the bare-hour
and hour-minute time forms - the result is the YYYY-MM-DD HH:MM:SS UTC
rendering; otherwise the result is the stripped input, which equals the
original input exactly when (in both directions) it contains neither
marker. -/
theorem c10_format_iso_time_amended :
    format_iso_time "" = "" ∧
    format_iso_time "2024-01-02T03:04:05.123456+00:00" = "2024-01-02 03:04:05 UTC" ∧
    format_iso_time "2024-01-02T03" = "2024-01-02 03:00:00 UTC" ∧
    (∀ s : String, ¬ s = "" → pyFromIsoformat (strip_time_markers s) = none →
      format_iso_time s = strip_time_markers s) ∧
    (∀ (s : String) (dt : PyDateTime), ¬ s = "" →
      pyFromIsoformat (strip_time_markers s) = some dt →
      format_iso_time s = strftime_utc dt) ∧
    (∀ s : String,
      strip_time_markers s = s ↔
        (pyContains s '+' = false ∧ pyContains s '.' = false)) := by
  refine ⟨by decide, by decide, by decide, ?_, ?_, ?_⟩
  · intro s hne hnone
    simp [format_iso_time, hne, hnone]
  · intro s dt hne hsome
    simp [format_iso_time, hne, hsome]
  · intro s
    constructor
    · intro h
      by_cases hp : pyContains s '+' = true
      · exfalso
        have hmem : Char.ofNat 43 ∈ s.data := by
          simpa [pyContains] using hp
        have h1 : (pyTakeUntil '+' s).data.length < s.data.length := by
          simpa [pyTakeUntil] using length_takeWhile_lt_of_mem '+' s.data hmem
        have h2 : (strip_time_markers s).data.length
            ≤ (pyTakeUntil '+' s).data.length := by
          simp only [strip_time_markers]
          rw [if_pos hp]
          split
          · simpa [pyTakeUntil] using
              length_takeWhile_le_self (fun x => !(x == '.')) (pyTakeUntil '+' s).data
          · exact Nat.le_refl _
        have h3 := Nat.lt_of_le_of_lt h2 h1
        rw [h] at h3
        exact Nat.lt_irrefl _ h3
      · have hp2 : pyContains s '+' = false := by
          cases hq : pyContains s '+'
          · rfl
          · exact absurd hq hp
        refine ⟨hp2, ?_⟩
        by_cases hd : pyContains s '.' = true
        · exfalso
          have hseq : strip_time_markers s = pyTakeUntil '.' s := by
            simp [strip_time_markers, hp2, hd]
          have hmem : Char.ofNat 46 ∈ s.data := by
            simpa [pyContains] using hd
          have h1 : (pyTakeUntil '.' s).data.length < s.data.length := by
            simpa [pyTakeUntil] using length_takeWhile_lt_of_mem '.' s.data hmem
          rw [← hseq, h] at h1
          exact Nat.lt_irrefl _ h1
        · cases hq : pyContains s '.'
          · rfl
          · exact absurd hq hd
    · intro h
      simp [strip_time_markers, h.1, h.2]

/-- Witness for C10 at the concrete unparseable input "abc", which
contains no marker and therefore comes back unchanged. -/
theorem c10_format_iso_time_amended_witness : format_iso_time "abc" = "abc" := by
  have h := c10_format_iso_time_amended
  calc format_iso_time "abc" = strip_time_markers "abc" :=
        h.2.2.2.1 "abc" (by decide) (by decide)
    _ = "abc" := (h.2.2.2.2.2 "abc").mpr ⟨by decide, by decide⟩

/-- One navigation press never changes the page count. -/
theorem apply_press_total_pages (v : HistoryPagerView) (p : NavPress) :
    (apply_press v p).total_pages = v.total_pages := by
  cases p <;> simp only [apply_press, prev_page_callback, next_page_callback] <;>
    split <;> rfl

/-- A sequence of navigation presses never changes the page count. -/
theorem apply_presses_total_pages (ps : List NavPress) (v : HistoryPagerView) :
    (apply_presses v ps).total_pages = v.total_pages := by
  induction ps generalizing v with
  | nil => rfl
  | cons p ps ih =>
    have h : apply_presses v (p :: ps) = apply_presses (apply_press v p) ps := rfl
    rw [h, ih, apply_press_total_pages]

/-- One navigation press preserves the cursor bound. -/
theorem apply_press_page_bound (v : HistoryPagerView) (p : NavPress)
    (h : v.current_page + 1 ≤ v.total_pages) :
    (apply_press v p).current_page + 1 ≤ (apply_press v p).total_pages := by
  cases p
  case prevPage =>
    by_cases hc : 0 < v.current_page
    · simp [apply_press, prev_page_callback, hc]
      omega
    · simp [apply_press, prev_page_callback, hc]
      exact h
  case nextPage =>
    by_cases hc : v.current_page < v.total_pages - 1
    · simp [apply_press, next_page_callback, hc]
      omega
    · simp [apply_press, next_page_callback, hc]
      exact h

/-- A sequence of navigation presses preserves the cursor bound. -/
theorem apply_presses_page_bound (ps : List NavPress) (v : HistoryPagerView)
    (h : v.current_page + 1 ≤ v.total_pages) :
    (apply_presses v ps).current_page + 1 ≤ (apply_presses v ps).total_pages := by
  induction ps generalizing v with
  | nil => exact h
  | cons p ps ih =>
    have he : apply_presses v (p :: ps) = apply_presses (apply_press v p) ps := rfl
    rw [he]
    exact ih (apply_press v p) (apply_press_page_bound v p h)

/-- The pager state reached from a freshly built view after a sequence
of navigation presses. -/
def pager_after (records : List HistoryEntry) (presses : List NavPress) : HistoryPagerView :=
  apply_presses (HistoryPagerView.init records) presses

/-- C5: the page count of a pager over N records equals
max(1, ceil(N/10)) and is stable under navigation; after any sequence of
presses the cursor is within [0, totalPages-1]; pressing next on the
last page and previous on page 0 leave the state unchanged and answer
with the bare acknowledgement. -/
theorem c5_pagination_clamped (records : List HistoryEntry) (presses : List NavPress) :
    (pager_after records presses).total_pages = max 1 ((records.length + 9) / 10) ∧
    (pager_after records presses).current_page + 1 ≤ (pager_after records presses).total_pages ∧
    ((pager_after records presses).current_page
        = (pager_after records presses).total_pages - 1 →
      next_page_callback (pager_after records presses)
        = (pager_after records presses, NavResponse.deferredAck)) ∧
    ((pager_after records presses).current_page = 0 →
      prev_page_callback (pager_after records presses)
        = (pager_after records presses, NavResponse.deferredAck)) := by
  have hstable : (pager_after records presses).total_pages
      = (HistoryPagerView.init records).total_pages :=
    apply_presses_total_pages presses (HistoryPagerView.init records)
  have hmax : (HistoryPagerView.init records).total_pages
      = max 1 ((records.length + 9) / 10) := by
    cases records with
    | nil => rfl
    | cons a l =>
      have he : (HistoryPagerView.init (a :: l)).total_pages
          = ((a :: l).length + 9) / 10 := rfl
      have hge : 1 ≤ ((a :: l).length + 9) / 10 := by
        simp only [List.length_cons]
        omega
      rw [he, Nat.max_eq_right hge]
  have hinit : (HistoryPagerView.init records).current_page + 1
      ≤ (HistoryPagerView.init records).total_pages := by
    have h0 : (HistoryPagerView.init records).current_page = 0 := rfl
    rw [hmax, h0]
    omega
  have hinv : (pager_after records presses).current_page + 1
      ≤ (pager_after records presses).total_pages :=
    apply_presses_page_bound presses (HistoryPagerView.init records) hinit
  refine ⟨hstable.trans hmax, hinv, ?_, ?_⟩
  · intro hc
    rw [next_page_callback, if_neg (by omega)]
  · intro hc
    rw [prev_page_callback, if_neg (by omega)]

/-- Witness for C5: with one record there is a single page, so a next
press from page 0 and a previous press from page 0 are both no-ops that
acknowledge the interaction. -/
theorem c5_pagination_clamped_witness :
    next_page_callback (pager_after [⟨"1", "n", "t"⟩] [NavPress.nextPage])
      = (pager_after [⟨"1", "n", "t"⟩] [NavPress.nextPage], NavResponse.deferredAck) ∧
    prev_page_callback (pager_after [⟨"1", "n", "t"⟩] [NavPress.nextPage])
      = (pager_after [⟨"1", "n", "t"⟩] [NavPress.nextPage], NavResponse.deferredAck) := by
  have h := c5_pagination_clamped [⟨"1", "n", "t"⟩] [NavPress.nextPage]
  exact ⟨h.2.2.1 (by decide), h.2.2.2 (by decide)⟩

/-- C2 counterexample: the claim says the claimed-flag is set and the
affordance disabled before the durable append is scheduled, so that
every subsequent press is rejected.  In the source the append is
awaited first and the flag is set last, the callback never checks the
flag on entry, and the disabling edit goes to the ephemeral reply
rather than the posted control - so two interleaved presses both log
and both receive the success response (first two conjuncts), two
strictly sequential presses, the second delivered after the first has
fully completed its flag-set, ALSO both succeed and both log (third
and fourth conjuncts), and a single press completes its durable append
while the claimed-flag is still unset (last two conjuncts). -/
theorem c2_claim_exclusivity_counterexample :
    (bonusRun true true [false, true, false, true, false, true]).succ = 2 ∧
    (bonusRun true true [false, true, false, true, false, true]).ledger = 2 ∧
    (bonusRun true true [false, false, false, false, true, true, true, true]).succ = 2 ∧
    (bonusRun true true [false, false, false, false, true, true, true, true]).ledger = 2 ∧
    (bonusRun true true [false, false]).ledger = 1 ∧
    (bonusRun true true [false, false]).claimed = false := by decide

/-- A press task that has passed its success-response segment. -/
def pressResponded : PressTask → Bool
  | .pending => false
  | .running 0 => false
  | .running 1 => false
  | .running (_ + 2) => true
  | .done => true

/-- Response invariant of the claim machine: whenever the claimed flag
is set, some press task has already passed its append call and its
success response. -/
def RespondedInv (s : BonusSys) : Prop :=
  (s.claimed = true ∨ pressResponded s.t1 = true ∨ pressResponded s.t2 = true) →
    1 ≤ s.succ

/-- One scheduler step preserves the response invariant. -/
theorem bonusStep_respondedInv (w1 w2 : Bool) (s : BonusSys) (b : Bool)
    (h : RespondedInv s) : RespondedInv (bonusStep w1 w2 s b) := by
  obtain ⟨c, cd, l, u, t1, t2⟩ := s
  cases b
  · rcases t1 with _ | pc | _
    · simp_all [RespondedInv, bonusStep, pressSegment, pressResponded]
    · rcases pc with _ | _ | _ | pc <;>
        simp_all [RespondedInv, bonusStep, pressSegment, pressResponded]
    · simp_all [RespondedInv, bonusStep, pressSegment, pressResponded]
  · rcases t2 with _ | pc | _
    · simp_all [RespondedInv, bonusStep, pressSegment, pressResponded]
    · rcases pc with _ | _ | _ | pc <;>
        simp_all [RespondedInv, bonusStep, pressSegment, pressResponded]
    · simp_all [RespondedInv, bonusStep, pressSegment, pressResponded]

/-- Any schedule preserves the response invariant. -/
theorem bonusRun_respondedInv (w1 w2 : Bool) (sched : List Bool) :
    ∀ s : BonusSys, RespondedInv s →
      RespondedInv (List.foldl (bonusStep w1 w2) s sched) := by
  induction sched with
  | nil => intro s h; exact h
  | cons b rest ih =>
    intro s h
    rw [List.foldl_cons]
    exact ih _ (bonusStep_respondedInv w1 w2 s b h)

/-- No segment of a press ever touches the posted control affordance. -/
theorem bonusStep_control_disabled (w1 w2 : Bool) (s : BonusSys) (b : Bool) :
    (bonusStep w1 w2 s b).control_disabled = s.control_disabled := by
  obtain ⟨c, cd, l, u, t1, t2⟩ := s
  cases b
  · rcases t1 with _ | pc | _
    · rfl
    · rcases pc with _ | _ | _ | pc <;> rfl
    · rfl
  · rcases t2 with _ | pc | _
    · rfl
    · rcases pc with _ | _ | _ | pc <;> rfl
    · rfl

/-- C2 amended: the claim workflow enforces no exclusivity at all.  The
claimed-flag is set only after the press awaited its ledger-append call
and sent its success response (second conjunct), but the flag is never
consulted when a press arrives and the disabling edit is applied to the
invoker ephemeral reply, never to the posted control, whose affordance
stays enabled for the whole window (first conjunct).  Hence every press
delivered before expiry - even one arriving strictly after an earlier
press completed its flag-set - runs the full claim sequence and
succeeds (third conjunct: two non-overlapping presses, two successes,
two ledger rows).  Moreover the awaited append swallows store failures
and returns normally, so a press whose durable write failed still gets
the success response and still sets the flag, leaving the flag set with
no ledger row at all (last conjuncts). -/
theorem c2_claim_exclusivity_amended :
    (∀ (w1 w2 : Bool) (sched : List Bool),
      (bonusRun w1 w2 sched).control_disabled = false) ∧
    (∀ (w1 w2 : Bool) (sched : List Bool),
      (bonusRun w1 w2 sched).claimed = true → 1 ≤ (bonusRun w1 w2 sched).succ) ∧
    (bonusRun true true [false, false, false, false, true, true, true, true]).succ = 2 ∧
    (bonusRun true true [false, false, false, false, true, true, true, true]).ledger = 2 ∧
    (bonusRun false true [false, false, false, false]).claimed = true ∧
    (bonusRun false true [false, false, false, false]).succ = 1 ∧
    (bonusRun false true [false, false, false, false]).ledger = 0 := by
  refine ⟨?_, ?_, by decide, by decide, by decide, by decide, by decide⟩
  · intro w1 w2 sched
    rw [bonusRun]
    induction sched using List.reverseRecOn with
    | nil => rfl
    | append_singleton rest b ih =>
      rw [List.foldl_append, List.foldl_cons, List.foldl_nil,
        bonusStep_control_disabled]
      exact ih
  · intro w1 w2 sched hcl
    have hinit : RespondedInv bonusInit := by
      intro h
      rcases h with h | h | h <;> simp [bonusInit, pressResponded] at h
    exact bonusRun_respondedInv w1 w2 sched bonusInit hinit (Or.inl hcl)

/-- Witness for C2 amended: after a full single press the posted
control is still enabled and the flag-set press had already sent its
success response. -/
theorem c2_claim_exclusivity_amended_witness :
    (bonusRun true true [false, false, false, false]).control_disabled = false ∧
    1 ≤ (bonusRun true true [false, false, false, false]).succ :=
  ⟨c2_claim_exclusivity_amended.1 true true [false, false, false, false],
   c2_claim_exclusivity_amended.2.1 true true [false, false, false, false] (by decide)⟩

/-- C6 counterexample: the claim says a failing edit of the prior prompt
makes setup fall back to posting a new prompt.  When the edit raises
Forbidden the source instead returns the failure at once: no new prompt
is posted (the phase is the edit failure, not a creation) and the
guild's configuration is left untouched. -/
theorem c6_setup_edit_fallback_counterexample :
    setup_message_phase (some ⟨"srv", "10", "5", "99", ""⟩) "10"
        EditOutcome.forbidden SendOutcome.ok "777" = MsgPhase.failEditForbidden ∧
    setup_config_phase (fun _ => some ⟨"srv", "10", "5", "99", ""⟩) "g" "srv" "10" "5"
        MsgPhase.failEditForbidden "g" = some ⟨"srv", "10", "5", "99", ""⟩ := by
  decide

/-- C6 amended: when the recorded prompt lives in the given channel,
a successful edit updates it in place and the saved configuration keeps
the old message reference; an edit failing with NotFound (the prompt was
deleted out of band) falls back to posting a new prompt whose reference
is recorded; but an edit failing with Forbidden or an HTTP error aborts
the whole operation with an error response and an unchanged
configuration - only the deleted-out-of-band failure falls back. -/
theorem c6_setup_edit_fallback_amended
    (c : GuildConf) (channel_id new_id : String) (send : SendOutcome)
    (h1 : ¬ c.message_id = "") (h2 : c.channel_id = channel_id)
    (h3 : pyIsDigit c.message_id = true) :
    setup_message_phase (some c) channel_id EditOutcome.ok send new_id
      = MsgPhase.edited c.message_id ∧
    setup_message_phase (some c) channel_id EditOutcome.notFound SendOutcome.ok new_id
      = MsgPhase.createdNew new_id ∧
    setup_message_phase (some c) channel_id EditOutcome.forbidden send new_id
      = MsgPhase.failEditForbidden ∧
    setup_message_phase (some c) channel_id EditOutcome.httpError send new_id
      = MsgPhase.failEditHttp ∧
    (∀ (conf_map : String → Option GuildConf) (gid sn rid : String),
      setup_config_phase conf_map gid sn channel_id rid MsgPhase.failEditForbidden
        = conf_map ∧
      setup_config_phase conf_map gid sn channel_id rid MsgPhase.failEditHttp
        = conf_map ∧
      (conf_map gid = some c →
        setup_config_phase conf_map gid sn channel_id rid (MsgPhase.edited c.message_id) gid
          = some ⟨sn, channel_id, rid, c.message_id, c.bonus_role_id⟩) ∧
      (conf_map gid = some c →
        setup_config_phase conf_map gid sn channel_id rid (MsgPhase.createdNew new_id) gid
          = some ⟨sn, channel_id, rid, new_id, c.bonus_role_id⟩)) := by
  refine ⟨?_, ?_, ?_, ?_, ?_⟩
  · simp [setup_message_phase, h1, h2, h3]
  · simp [setup_message_phase, h1, h2, h3]
  · simp [setup_message_phase, h1, h2, h3]
  · simp [setup_message_phase, h1, h2, h3]
  · intro conf_map gid sn rid
    refine ⟨rfl, rfl, ?_, ?_⟩
    · intro hm
      simp [setup_config_phase, hm]
    · intro hm
      simp [setup_config_phase, hm]

/-- Witness for C6 amended at a concrete prior configuration. -/
theorem c6_setup_edit_fallback_amended_witness :
    setup_message_phase (some ⟨"srv", "10", "5", "99", ""⟩) "10"
        EditOutcome.ok SendOutcome.ok "777" = MsgPhase.edited "99" ∧
    setup_message_phase (some ⟨"srv", "10", "5", "99", ""⟩) "10"
        EditOutcome.notFound SendOutcome.ok "777" = MsgPhase.createdNew "777" := by
  have h := c6_setup_edit_fallback_amended ⟨"srv", "10", "5", "99", ""⟩ "10" "777"
    SendOutcome.ok (by decide) (by decide) (by decide)
  exact ⟨h.1, h.2.1⟩

/-- C7 counterexample: the claim says the reset removes exactly the rows
whose guild identifier equals the guild being reset.  The source skips
(and therefore deletes) any data row too short to contain the
guild-identifier column: the malformed row below has no guild cell at
all - its cell at the guild column is absent, not equal to "g1" - yet it
is removed along with the "g1" row. -/
theorem c7_reset_history_frame_counterexample :
    clear_guild_history_from_sheet
        [["uid", "guild_id", "username", "time"],
         ["u2", "g2", "n2", "t2"],
         ["orphan"],
         ["u1", "g1", "n1", "t1"]] "g1"
      = [["uid", "guild_id", "username", "time"], ["u2", "g2", "n2", "t2"]] ∧
    guild_id_col_index ["uid", "guild_id", "username", "time"] = 1 ∧
    (["orphan"] : List String).get? 1 = none := by
  decide

/-- C7 amended: the reset keeps the header in place; every data row
whose guild-identifier cell is present and differs from the reset guild
is preserved; everything kept besides the header is such a row - so the
removed rows are exactly those whose guild cell equals the reset guild
together with the malformed rows lacking the guild column; and in
memory only the reset guild's list is cleared, every other guild's
list being untouched. -/
theorem c7_reset_history_frame_amended
    (header : List String) (rest : List (List String)) (g : String) :
    (clear_guild_history_from_sheet (header :: rest) g).head? = some header ∧
    (∀ r ∈ rest, ∀ v, r.get? (guild_id_col_index header) = some v → ¬ v = g →
      r ∈ clear_guild_history_from_sheet (header :: rest) g) ∧
    (∀ r ∈ (clear_guild_history_from_sheet (header :: rest) g).tail,
      r ∈ rest ∧ ∃ v, r.get? (guild_id_col_index header) = some v ∧ ¬ v = g) ∧
    (∀ hist : String → List HistoryEntry,
      reset_history_memory hist g g = [] ∧
      ∀ k, ¬ k = g → reset_history_memory hist g k = hist k) := by
  refine ⟨rfl, ?_, ?_, ?_⟩
  · intro r hr v hv hne
    apply List.mem_cons_of_mem
    rw [List.mem_filter]
    refine ⟨hr, ?_⟩
    unfold history_row_kept
    rw [hv]
    simp [hne]
  · intro r hr
    have hf : r ∈ rest.filter (history_row_kept (guild_id_col_index header) g) := hr
    rw [List.mem_filter] at hf
    obtain ⟨hr1, hk⟩ := hf
    refine ⟨hr1, ?_⟩
    unfold history_row_kept at hk
    cases hget : r.get? (guild_id_col_index header) with
    | none => rw [hget] at hk; exact absurd hk (by simp)
    | some v =>
      rw [hget] at hk
      exact ⟨v, rfl, by simpa using hk⟩
  · intro hist
    refine ⟨by simp [reset_history_memory], ?_⟩
    intro k hk
    simp [reset_history_memory, hk]

/-- Witness for C7 amended: a row of another guild is preserved and the
other guild's in-memory list is untouched. -/
theorem c7_reset_history_frame_amended_witness :
    ["g2", "x", "y", "z"] ∈ clear_guild_history_from_sheet
        [["guild_id", "uid", "username", "time"], ["g2", "x", "y", "z"]] "g1" ∧
    reset_history_memory (fun _ => [⟨"1", "n", "t"⟩]) "g1" "g2" = [⟨"1", "n", "t"⟩] := by
  have h := c7_reset_history_frame_amended ["guild_id", "uid", "username", "time"]
    [["g2", "x", "y", "z"]] "g1"
  exact ⟨h.2.1 ["g2", "x", "y", "z"] (by decide) "g2" (by decide) (by decide),
    (h.2.2.2 (fun _ => [⟨"1", "n", "t"⟩])).2 "g2" (by decide)⟩

/-- Frame property of the grant workflow: unless the invocation reaches
the granted terminal state, it returns the DataManager state and the
member's roles untouched. -/
theorem check_eligibility_frame (dm : DMState) (gid uid : String)
    (guild_roles member_roles : List Nat) (ar : AddRolesResult) (un ts : String) :
    (check_eligibility_callback dm gid uid guild_roles member_roles ar un ts).outcome
      = GrantOutcome.granted ∨
    ((check_eligibility_callback dm gid uid guild_roles member_roles ar un ts).dm = dm ∧
     (check_eligibility_callback dm gid uid guild_roles member_roles ar un ts).member_roles
      = member_roles) := by
  by_cases hu : uid ∈ dm.valid_uids
  case neg =>
    right
    constructor <;> simp [check_eligibility_callback, hu]
  case pos =>
    cases hcfg : dm.guild_config gid with
    | none =>
      right
      constructor <;> simp [check_eligibility_callback, hu, hcfg]
    | some conf =>
      by_cases hd : pyIsDigit conf.role_id = false
      case pos =>
        right
        constructor <;> simp [check_eligibility_callback, hu, hcfg, hd]
      case neg =>
        by_cases hg : strToNat conf.role_id ∈ guild_roles
        case neg =>
          right
          constructor <;> simp [check_eligibility_callback, hu, hcfg, hd, hg]
        case pos =>
          by_cases hm : strToNat conf.role_id ∈ member_roles
          case pos =>
            right
            constructor <;> simp [check_eligibility_callback, hu, hcfg, hd, hg, hm]
          case neg =>
            cases ar with
            | forbidden =>
              right
              constructor <;> simp [check_eligibility_callback, hu, hcfg, hd, hg, hm]
            | httpError =>
              right
              constructor <;> simp [check_eligibility_callback, hu, hcfg, hd, hg, hm]
            | ok =>
              left
              simp [check_eligibility_callback, hu, hcfg, hd, hg, hm]

/-- C4: every grant-workflow invocation that terminates before the
granted state - not eligible, guild not configured, invalid or
unresolvable role, already granted, or a privilege-grant call failing
with Forbidden or an HTTP error - leaves the guild history (the whole
DataManager state) unchanged and the member's roles unchanged, so no
history append is performed or scheduled. -/
theorem c4_failed_workflow_preserves_history (dm : DMState) (gid uid : String)
    (guild_roles member_roles : List Nat) (ar : AddRolesResult) (un ts : String)
    (h : (check_eligibility_callback dm gid uid guild_roles member_roles ar un ts).outcome
      ≠ GrantOutcome.granted) :
    (check_eligibility_callback dm gid uid guild_roles member_roles ar un ts).dm = dm ∧
    (check_eligibility_callback dm gid uid guild_roles member_roles ar un ts).member_roles
      = member_roles :=
  (check_eligibility_frame dm gid uid guild_roles member_roles ar un ts).resolve_left h

/-- A DataManager state with the roster {"100"} and no configuration for
any guild (the not-configured scenario). -/
def dm_unconfigured : DMState :=
  ⟨["100"], [("100", "img://a")], fun _ => none, fun _ => []⟩

/-- Witness for C4: the grant workflow for eligible member "100" in an
unconfigured guild terminates early and appends no history. -/
theorem c4_failed_workflow_preserves_history_witness :
    (check_eligibility_callback dm_unconfigured "g" "100" [] [] AddRolesResult.ok
      "name" "t").dm = dm_unconfigured ∧
    (check_eligibility_callback dm_unconfigured "g" "100" [] [] AddRolesResult.ok
      "name" "t").member_roles = [] := by
  apply c4_failed_workflow_preserves_history
  intro hc
  have he : (check_eligibility_callback dm_unconfigured "g" "100" [] [] AddRolesResult.ok
      "name" "t").outcome = GrantOutcome.guildNotConfigured := rfl
  rw [he] at hc
  exact absurd hc (by decide)

/-- C3: when the member is eligible, the guild is configured with a
live, valid role the member does not yet hold, the history is empty and
the grant call succeeds, the first invocation reaches the granted state
and leaves exactly one history row; a second invocation for the same
guild and member - with any outcome of the privilege-grant call, which
is therefore never consulted - short-circuits with the informational
already-granted response and changes nothing, so the history still has
exactly the one row. -/
theorem c3_already_granted_short_circuit (dm : DMState) (gid uid : String)
    (conf : GuildConf) (guild_roles member_roles : List Nat)
    (un ts un2 ts2 : String) (ar2 : AddRolesResult)
    (h1 : uid ∈ dm.valid_uids)
    (h2 : dm.guild_config gid = some conf)
    (h3 : pyIsDigit conf.role_id = true)
    (h4 : strToNat conf.role_id ∈ guild_roles)
    (h5 : strToNat conf.role_id ∉ member_roles)
    (h0 : dm.granted_history gid = []) :
    (check_eligibility_callback dm gid uid guild_roles member_roles AddRolesResult.ok
        un ts).outcome = GrantOutcome.granted ∧
    ((check_eligibility_callback dm gid uid guild_roles member_roles AddRolesResult.ok
        un ts).dm.granted_history gid).length = 1 ∧
    (check_eligibility_callback
        (check_eligibility_callback dm gid uid guild_roles member_roles AddRolesResult.ok
          un ts).dm
        gid uid guild_roles
        (check_eligibility_callback dm gid uid guild_roles member_roles AddRolesResult.ok
          un ts).member_roles
        ar2 un2 ts2).outcome = GrantOutcome.alreadyGranted ∧
    (check_eligibility_callback
        (check_eligibility_callback dm gid uid guild_roles member_roles AddRolesResult.ok
          un ts).dm
        gid uid guild_roles
        (check_eligibility_callback dm gid uid guild_roles member_roles AddRolesResult.ok
          un ts).member_roles
        ar2 un2 ts2).dm
      = (check_eligibility_callback dm gid uid guild_roles member_roles AddRolesResult.ok
          un ts).dm := by
  have e1 : check_eligibility_callback dm gid uid guild_roles member_roles AddRolesResult.ok
      un ts
      = ⟨GrantOutcome.granted,
         { dm with granted_history := fun g =>
             if g = gid then dm.granted_history g ++ [⟨uid, un, ts⟩]
             else dm.granted_history g },
         strToNat conf.role_id :: member_roles⟩ := by
    unfold check_eligibility_callback
    rw [if_neg (by simp [h1]), h2]
    simp only [h3, Bool.true_eq_false, if_false]
    rw [if_neg (by simp [h4]), if_neg (by simp [h5])]
  have e2 : check_eligibility_callback
      { dm with granted_history := fun g =>
          if g = gid then dm.granted_history g ++ [⟨uid, un, ts⟩]
          else dm.granted_history g }
      gid uid guild_roles (strToNat conf.role_id :: member_roles) ar2 un2 ts2
      = ⟨GrantOutcome.alreadyGranted,
         { dm with granted_history := fun g =>
             if g = gid then dm.granted_history g ++ [⟨uid, un, ts⟩]
             else dm.granted_history g },
         strToNat conf.role_id :: member_roles⟩ := by
    unfold check_eligibility_callback
    rw [if_neg (by simp [h1]), h2]
    simp only [h3, Bool.true_eq_false, if_false]
    rw [if_neg (by simp [h4]), if_pos (List.mem_cons_self _ _)]
  rw [e1]
  refine ⟨rfl, ?_, ?_, ?_⟩
  · simp [h0]
  · simp only [e2]
  · simp only [e2]

/-- A DataManager state with roster {"100"} and guild "g" configured
with role id "5" (the double-invocation scenario). -/
def dm_configured : DMState :=
  ⟨["100"], [("100", "img://a")],
   fun g => if g = "g" then some ⟨"srv", "10", "5", "99", ""⟩ else none,
   fun _ => []⟩

/-- The first grant invocation of the C3 scenario. -/
def grant_first : GrantResult :=
  check_eligibility_callback dm_configured "g" "100" [5] [] AddRolesResult.ok "name" "t1"

/-- The second grant invocation of the C3 scenario, issued on the state
left by the first one (its add_roles outcome is irrelevant because the
call never happens). -/
def grant_second : GrantResult :=
  check_eligibility_callback grant_first.dm "g" "100" [5] grant_first.member_roles
    AddRolesResult.httpError "name2" "t2"

/-- Witness for C3: member "100" invokes the grant twice in guild "g";
the first succeeds and writes one history row, the second answers
already-granted and changes nothing. -/
theorem c3_already_granted_short_circuit_witness :
    grant_first.outcome = GrantOutcome.granted ∧
    (grant_first.dm.granted_history "g").length = 1 ∧
    grant_second.outcome = GrantOutcome.alreadyGranted ∧
    grant_second.dm = grant_first.dm :=
  c3_already_granted_short_circuit dm_configured "g" "100" ⟨"srv", "10", "5", "99", ""⟩
    [5] [] "name" "t1" "name2" "t2" AddRolesResult.httpError
    (by decide) (by decide) (by decide) (by decide) (by decide) (by decide)
